import Mathlib

/-!
A verification development for the weekly-lineup transaction and
fantasy-scoring pipeline of the easy-fantasy repository
(Firebase functions under functions/src).

The embedding below translates the relevant TypeScript sources:
  - functions/src/common.ts          (safeParseInt, safeParseFloat)
  - functions/src/pointsCalculator.ts
  - functions/src/statsAggregators.ts
  - functions/src/statsSync.ts       (special-teams pipeline wiring)
  - functions/src/lineupProcessing.ts (saveWeeklyLineup, calculateWeeklyScores)

Modelling conventions:
  - JS numbers are modelled with exact arithmetic (Int / Rat); the inputs in
    play (game stats, epochs, counts) are small enough that IEEE-754
    imprecision does not appear.
  - Firestore documents are modelled with association lists keyed by the
    structured content of the document paths the code builds
    (for example users/(uid)/weeklyLineups/(leagueId)_(season)_(week)
    becomes the key (uid, leagueId, season, week)).
  - A Firestore transaction commits its buffered writes in order; two
    FieldValue.increment(1) writes against the same document therefore add 2.
  - set(..., merge: true) merges map fields per key (submitted keys replace,
    other keys survive) while scalar fields are replaced; this is the
    documented Firestore deep-merge behaviour and is modelled as such for the
    lineup document's picks map.
  - Timestamp.now() and Math.floor(Date.now() / 1000) are both modelled by a
    single integer clock passed to the operation.
-/

namespace EasyFantasy

/-! ### common.ts numeric helpers -/

/-- Value of a list of decimal digit characters. -/
def digitsVal (cs : List Char) : Nat :=
  cs.foldl (fun a c => 10 * a + (c.toNat - '0'.toNat)) 0

/-- JS `parseInt(String(val), 10)` with NaN collapsed to 0, as in
common.ts `safeParseInt`: skip leading whitespace, take an optional sign and
the longest digit prefix; no digits parses to NaN which becomes 0. -/
def safeParseInt (s : String) : Int :=
  let cs := s.toList.dropWhile (fun c => c.isWhitespace)
  match cs with
  | '-' :: rest =>
      let ds := rest.takeWhile (fun c => c.isDigit)
      if ds.isEmpty then 0 else -(digitsVal ds : Int)
  | '+' :: rest =>
      let ds := rest.takeWhile (fun c => c.isDigit)
      if ds.isEmpty then 0 else (digitsVal ds : Int)
  | _ =>
      let ds := cs.takeWhile (fun c => c.isDigit)
      if ds.isEmpty then 0 else (digitsVal ds : Int)

/-- `safeParseInt` applied to a possibly-undefined string field:
`parseInt(String(undefined))` is NaN, so a missing field parses to 0. -/
def safeParseIntOpt (s : Option String) : Int :=
  match s with
  | none => 0
  | some s => safeParseInt s

/-- `safeParseInt` applied to a field already holding a JS number or
undefined (stringifying a number and re-parsing truncates toward zero; the
fields this is applied to hold integers, modelled as `Int`). -/
def safeParseIntNum (v : Option Int) : Int := v.getD 0

/-- `safeParseFloat` applied to a field already holding a JS number or
undefined (stringify/parse is the identity on finite numbers). -/
def safeParseFloatNum (v : Option Rat) : Rat := v.getD 0

/-- JS `Math.round`: round half toward positive infinity. -/
def jsRound (x : Rat) : Int := ⌊x + 1 / 2⌋

/-- `Math.round(points * 100) / 100` — round to 2 decimals, half up on the
cent, as every calculator in pointsCalculator.ts does. -/
def round2 (x : Rat) : Rat := ((jsRound (x * 100) : Int) : Rat) / 100

/-! ### pointsCalculator.ts input types (types.ts) -/

/-- types.ts `TeamDefenseStatsCalc` (structure for `calculateDefensePoints`,
parsed from DST). -/
structure TeamDefenseStatsCalc where
  ptsAllowed : Option Int := none
  defensiveInterceptions : Option Int := none
  fumblesRecovered : Option Int := none
  sacks : Option Rat := none
  safeties : Option Int := none
  defTD : Option Int := none
  deriving DecidableEq, Repr

/-- types.ts `SpecialTeamsStatsCalc` (structure for
`calculateSpecialTeamsPoints`, aggregated).  statsSync.ts additionally sets a
`fumbleReturnTD` property on the object it builds; it is carried here even
though `calculateSpecialTeamsPoints` never reads it. -/
structure SpecialTeamsStatsCalc where
  xpMade : Option Int := none
  fgMade : Option Int := none
  kickReturnTD : Option Int := none
  puntReturnTD : Option Int := none
  fumbleReturnTD : Option Int := none
  xpReturn : Option Int := none
  deriving DecidableEq, Repr

/-- types.ts aggregated passing stats as embedded in `TeamGameStatsForCalc`. -/
structure PassingStatsAgg where
  totalPassingYards : Option Rat := none
  totalPassingTDs : Option Int := none
  deriving DecidableEq, Repr

/-- types.ts aggregated rushing stats as embedded in `TeamGameStatsForCalc`. -/
structure RushingStatsAgg where
  totalRushingYards : Option Rat := none
  totalRushingTDs : Option Int := none
  deriving DecidableEq, Repr

/-- types.ts `TeamGameStatsForCalc`, the combined input for the team-unit
calculators. -/
structure TeamGameStatsForCalc where
  passingStats : Option PassingStatsAgg := none
  rushingStats : Option RushingStatsAgg := none
  teamDefData : Option TeamDefenseStatsCalc := none
  specialTeamsStats : Option SpecialTeamsStatsCalc := none
  deriving DecidableEq, Repr

/-- pointsCalculator.ts `calculateDefensePoints`: tiered points-allowed bonus
(`ptsAllowed ?? 99`), 2 per interception and fumble recovered, 1 per sack,
2 per safety, 6 per defensive TD, rounded to 2 decimals; 0 when
`teamDefData` is missing. -/
def calculateDefensePoints (teamGameStats : TeamGameStatsForCalc) : Rat :=
  match teamGameStats.teamDefData with
  | none => 0
  | some defStats =>
      let ptsAllowed := defStats.ptsAllowed.getD 99
      let tier : Rat :=
        if ptsAllowed = 0 then 10
        else if 2 ≤ ptsAllowed ∧ ptsAllowed ≤ 9 then 6
        else if 10 ≤ ptsAllowed ∧ ptsAllowed ≤ 20 then 3
        else 0
      let points : Rat := tier
        + ((safeParseIntNum defStats.defensiveInterceptions
            + safeParseIntNum defStats.fumblesRecovered) : Int) * 2
        + safeParseFloatNum defStats.sacks * 1
        + (safeParseIntNum defStats.safeties : Int) * 2
        + (safeParseIntNum defStats.defTD : Int) * 6
      round2 points

/-- pointsCalculator.ts `calculateSpecialTeamsPoints`: 1 per extra point,
3 per field goal, 6 per kick or punt return TD, 2 per returned extra point,
rounded to 2 decimals; 0 when `specialTeamsStats` is missing.  Note that the
`fumbleReturnTD` property the pipeline supplies is never read. -/
def calculateSpecialTeamsPoints (teamGameStats : TeamGameStatsForCalc) : Rat :=
  match teamGameStats.specialTeamsStats with
  | none => 0
  | some stStats =>
      let returnTD :=
        safeParseIntNum stStats.kickReturnTD + safeParseIntNum stStats.puntReturnTD
      let points : Rat := (safeParseIntNum stStats.xpMade : Int) * 1
        + (safeParseIntNum stStats.fgMade : Int) * 3
        + (returnTD : Int) * 6
        + (safeParseIntNum stStats.xpReturn : Int) * 2
      round2 points

/-! ### statsAggregators.ts -/

/-- Raw per-player `Kicking` category as the aggregators read it
(API values are strings). -/
structure KickingRaw where
  xpMade : Option String := none
  fgMade : Option String := none
  kickReturnTD : Option String := none
  deriving DecidableEq, Repr

/-- Raw per-player `Punting` category as the aggregators read it. -/
structure PuntingRaw where
  puntReturnTD : Option String := none
  deriving DecidableEq, Repr

/-- Raw per-player `Defense` category as the aggregators read it. -/
structure PlayerDefenseRaw where
  fumRetTD : Option String := none
  deriving DecidableEq, Repr

/-- types.ts `BoxScorePlayerGameStatsAPI`, restricted to the fields the
kicking/return aggregators read. -/
structure BoxScorePlayerGameStatsAPI where
  teamID : Option String := none
  Kicking : Option KickingRaw := none
  Punting : Option PuntingRaw := none
  Defense : Option PlayerDefenseRaw := none
  deriving DecidableEq, Repr

/-- The `playerStats` map of a box score: player id to possibly-undefined
raw stats, in iteration order. -/
abbrev PlayerStatsMap := List (String × Option BoxScorePlayerGameStatsAPI)

/-- Output of statsAggregators.ts `aggregateKickingStats`. -/
structure AggregatedKickingStats where
  totalExtraPointsMade : Int
  totalFieldGoalsMade : Int
  deriving DecidableEq, Repr

/-- Output of statsAggregators.ts `aggregateSpecialTeamsReturnStats`. -/
structure AggregatedReturnStats where
  totalKickReturnTDs : Int
  totalPuntReturnTDs : Int
  totalFumbleReturnTDs : Int
  deriving DecidableEq, Repr

/-- statsAggregators.ts `aggregateKickingStats`: sum `xpMade`/`fgMade` over
players whose recorded `teamID` equals the team being aggregated and that
have a `Kicking` category. -/
def aggregateKickingStats (playerStatsMap : PlayerStatsMap) (teamID : String) :
    AggregatedKickingStats :=
  playerStatsMap.foldl
    (fun acc q =>
      match q.2 with
      | none => acc
      | some playerData =>
          if playerData.teamID = some teamID then
            match playerData.Kicking with
            | none => acc
            | some k =>
                { totalExtraPointsMade :=
                    acc.totalExtraPointsMade + safeParseIntOpt k.xpMade
                  totalFieldGoalsMade :=
                    acc.totalFieldGoalsMade + safeParseIntOpt k.fgMade }
          else acc)
    { totalExtraPointsMade := 0, totalFieldGoalsMade := 0 }

/-- statsAggregators.ts `aggregateSpecialTeamsReturnStats`: sum kick, punt and
fumble return TDs over players whose recorded `teamID` equals the team being
aggregated, reading `Kicking.kickReturnTD`, `Punting.puntReturnTD` and
`Defense.fumRetTD` respectively. -/
def aggregateSpecialTeamsReturnStats (playerStatsMap : PlayerStatsMap)
    (teamID : String) : AggregatedReturnStats :=
  playerStatsMap.foldl
    (fun acc q =>
      match q.2 with
      | none => acc
      | some playerData =>
          if playerData.teamID = some teamID then
            let acc := match playerData.Kicking with
              | none => acc
              | some k =>
                  { acc with totalKickReturnTDs :=
                      acc.totalKickReturnTDs + safeParseIntOpt k.kickReturnTD }
            let acc := match playerData.Punting with
              | none => acc
              | some pu =>
                  { acc with totalPuntReturnTDs :=
                      acc.totalPuntReturnTDs + safeParseIntOpt pu.puntReturnTD }
            match playerData.Defense with
            | none => acc
            | some d =>
                { acc with totalFumbleReturnTDs :=
                    acc.totalFumbleReturnTDs + safeParseIntOpt d.fumRetTD }
          else acc)
    { totalKickReturnTDs := 0, totalPuntReturnTDs := 0, totalFumbleReturnTDs := 0 }

/-! ### statsSync.ts special-teams pipeline wiring -/

/-- statsSync.ts `fetchAndProcessSingleGameStats`, the `specialTeamsStats`
object it builds for a team from the aggregated kicking and return stats
(`xpReturn` is hard-coded to 0 there). -/
def buildSpecialTeamsStats (playerStatsMap : PlayerStatsMap) (teamId : String) :
    SpecialTeamsStatsCalc :=
  let aggKicking := aggregateKickingStats playerStatsMap teamId
  let aggReturns := aggregateSpecialTeamsReturnStats playerStatsMap teamId
  { xpMade := some aggKicking.totalExtraPointsMade
    fgMade := some aggKicking.totalFieldGoalsMade
    kickReturnTD := some aggReturns.totalKickReturnTDs
    puntReturnTD := some aggReturns.totalPuntReturnTDs
    fumbleReturnTD := some aggReturns.totalFumbleReturnTDs
    xpReturn := some 0 }

/-- The special-teams fantasy points the ingestion pipeline stores for a team:
aggregate the game's per-player stats, then apply
`calculateSpecialTeamsPoints` (which only reads the `specialTeamsStats`
field of its input). -/
def pipelineSpecialTeamsPoints (playerStatsMap : PlayerStatsMap)
    (teamId : String) : Rat :=
  calculateSpecialTeamsPoints
    { specialTeamsStats := some (buildSpecialTeamsStats playerStatsMap teamId) }

/-! ### Spec-side formulas (written from the spec's words, for comparison) -/

/-- The points-allowed tier bonus exactly as the spec words it: 10 for a
shutout, 6 for 2 to 9 points allowed, 3 for 10 to 20, 0 otherwise. -/
def specDefenseTier (ptsAllowed : Int) : Rat :=
  if ptsAllowed = 0 then 10
  else if 2 ≤ ptsAllowed ∧ ptsAllowed ≤ 9 then 6
  else if 10 ≤ ptsAllowed ∧ ptsAllowed ≤ 20 then 3
  else 0

/-- The special-teams formula exactly as the spec words it for the ingestion
pipeline: 1 per extra point made + 3 per field goal made + 6 per kick, punt
or fumble return touchdown + 2 per returned extra point (the pipeline
supplies 0 returned extra points), rounded to 2 decimals. -/
def specSpecialTeamsPoints (playerStatsMap : PlayerStatsMap)
    (teamId : String) : Rat :=
  let aggKicking := aggregateKickingStats playerStatsMap teamId
  let aggReturns := aggregateSpecialTeamsReturnStats playerStatsMap teamId
  round2 ((1 : Rat) * (aggKicking.totalExtraPointsMade : Int)
    + 3 * (aggKicking.totalFieldGoalsMade : Int)
    + 6 * ((aggReturns.totalKickReturnTDs + aggReturns.totalPuntReturnTDs
        + aggReturns.totalFumbleReturnTDs : Int))
    + 2 * (0 : Rat))

/-! ### Association lists standing in for Firestore collections -/

/-- First-match lookup in an association list (a Firestore document read). -/
def lookupA {κ : Type} {α : Type} [DecidableEq κ] :
    List (κ × α) → κ → Option α
  | [], _ => none
  | (k', v) :: t, k => if k = k' then some v else lookupA t k

/-- Replace-or-append write in an association list (a Firestore document
write). -/
def setA {κ : Type} {α : Type} [DecidableEq κ] :
    List (κ × α) → κ → α → List (κ × α)
  | [], k, v => [(k, v)]
  | (k', v') :: t, k, v =>
      if k = k' then (k, v) :: t else (k', v') :: setA t k v

/-! ### lineupProcessing.ts data model -/

/-- An incoming pick from the request payload: the code validates that `id`
is a string and `type` is the string player or team. -/
structure RawPick where
  id : String
  type : String
  deriving DecidableEq, Repr

/-- lineupProcessing.ts `SaveLineupPayload` (`request.data`): the picks object
is a mapping from position name to pick, modelled in iteration order. -/
structure SaveLineupPayload where
  leagueId : String
  week : Int
  picks : List (String × RawPick)
  deriving DecidableEq, Repr

/-- types.ts `LineupPick`: a stored pick stamped with the selection time. -/
structure LineupPick where
  id : String
  type : String
  selectedAt : Int
  deriving DecidableEq, Repr

/-- types.ts `FirestoreWeeklyLineup`, the stored lineup document. -/
structure FirestoreWeeklyLineup where
  userId : String
  leagueId : String
  season : Int
  week : Int
  picks : List (String × LineupPick)
  isComplete : Bool
  lastUpdated : Int
  totalPoints : Option Rat
  deriving DecidableEq, Repr

/-- types.ts `GameInfoForWeek`, restricted to the kickoff field the deadline
check reads; `gameTimeEpoch` may be undefined. -/
structure GameInfoForWeek where
  gameTimeEpoch : Option String
  deriving DecidableEq, Repr

/-- types.ts `FirestoreWeeklySchedule`, restricted to the games list.  An
undefined games field behaves exactly like an empty list in the deadline
check, so both are modelled as `[]`. -/
structure FirestoreWeeklySchedule where
  games : List GameInfoForWeek
  deriving DecidableEq, Repr

/-- A stored player game-stat document (players/(id)/gamestats/(gameId)),
restricted to the fields `calculateWeeklyScores` reads. -/
structure FirestorePlayerGameStat where
  season : Int
  week : Int
  fantasyPoints : Option Rat
  deriving DecidableEq, Repr

/-- A stored team game-stat document (teams/(id)/gamestats/(gameId)),
restricted to the fields `calculateWeeklyScores` reads. -/
structure FirestoreTeamGameStat where
  season : Int
  week : Int
  fantasyPointsPassing : Option Rat
  fantasyPointsRushing : Option Rat
  fantasyPointsDefense : Option Rat
  fantasyPointsSpecialTeams : Option Rat
  deriving DecidableEq, Repr

/-- Key of a lineup document
users/(uid)/weeklyLineups/(leagueId)_(season)_(week). -/
abbrev LineupKey := String × String × Int × Int

/-- Key of a usage-count document
users/(uid)/leagueUsage/(leagueId)_(season)/usageCounts/(entityId). -/
abbrev UsageKey := String × String × Int × String

/-- The Firestore state the lineup subsystem touches.  Usage documents carry
`entityId` and `type` fields besides `count`; only `count` is ever read back,
so the model stores just the count. -/
structure FStore where
  lineups : List (LineupKey × FirestoreWeeklyLineup)
  usage : List (UsageKey × Int)
  schedules : List ((Int × Int) × FirestoreWeeklySchedule)
  playerGameStats : List (String × FirestorePlayerGameStat)
  teamGameStats : List (String × FirestoreTeamGameStat)
  deriving DecidableEq, Repr

/-- The rejection reasons `saveWeeklyLineup` can throw.  The schedule
not-found HttpsError is thrown inside the try block and re-thrown by the
catch as an internal error; either way the call is rejected, and the model
keeps the reasons apart. -/
inductive SaveError where
  | invalidArgument
  | scheduleUnavailable
  | cannotDetermineDeadline
  | deadlinePassed
  | usageLimitReached
  deriving DecidableEq, Repr

/-- config.ts `CURRENT_NFL_SEASON` parsed once at module load. -/
def currentSeason : Int := 2024

/-- config.ts `MAX_NFL_WEEKS`. -/
def maxNflWeeks : Int := 18

/-- lineupProcessing.ts `MAX_USAGE_COUNT`. -/
def maxUsageCount : Int := 5

/-- `Number.MAX_SAFE_INTEGER`, the initial value of the earliest-kickoff
fold. -/
def maxSafeInteger : Int := 9007199254740991

/-- The valid position names accepted by the payload validation. -/
def validPositions : List String :=
  ["QB", "RB", "WR", "TE", "PassingOffense", "RushingOffense", "Defense",
   "SpecialTeams"]

/-- The earliest-kickoff fold of the deadline check: starting from
`MAX_SAFE_INTEGER`, take each game's parsed `gameTimeEpoch` when it is
positive and smaller than the current minimum. -/
def earliestGameEpoch (games : List GameInfoForWeek) : Int :=
  games.foldl
    (fun acc g =>
      let gameEpoch := safeParseIntOpt g.gameTimeEpoch
      if 0 < gameEpoch ∧ gameEpoch < acc then gameEpoch else acc)
    maxSafeInteger

/-- The kind-qualified entity ids implied by the picks, in iteration order
(`(type)_(id)` per pick; one entry per filled slot, duplicates kept exactly
as the code's `entityIdsToUpdate` array keeps them). -/
def entityIdsOf (picks : List (String × RawPick)) : List String :=
  picks.map (fun q => q.2.type ++ "_" ++ q.2.id)

/-- The picks object rebuilt with selection timestamps
(`lineupPicksWithTimestamp`). -/
def stampPicks (picks : List (String × RawPick)) (now : Int) :
    List (String × LineupPick) :=
  picks.map (fun q => (q.1, { id := q.2.id, type := q.2.type, selectedAt := now }))

/-- Firestore `set(..., merge of true)` semantics on the picks map field:
keys of the submitted map replace, keys only in the stored map survive. -/
def mergePicks (old new : List (String × LineupPick)) :
    List (String × LineupPick) :=
  new ++ old.filter (fun q => !((new.map Prod.fst).contains q.1))

/-- The usage key of an entity for a given user and league
(season is `currentSeason`, as in the code's collection path). -/
def usageKeyOf (userId leagueId entityId : String) : UsageKey :=
  (userId, leagueId, currentSeason, entityId)

/-- The stored count of a usage document, 0 when the document does not exist
(the code reads `doc.data()?.count ?? 0` and defaults a missing doc to 0). -/
def usageCount (us : List (UsageKey × Int)) (k : UsageKey) : Int :=
  (lookupA us k).getD 0

/-- One committed `FieldValue.increment(1)` write against a usage document:
writes are applied in commit order, so an increment sees the effect of the
increments before it. -/
def bumpUsage (us : List (UsageKey × Int)) (k : UsageKey) :
    List (UsageKey × Int) :=
  setA us k (usageCount us k + 1)

/-- The stored picks of the lineup document at `key`, or an empty map when
the document does not exist yet. -/
def oldLineupPicks (st : FStore) (key : LineupKey) : List (String × LineupPick) :=
  match lookupA st.lineups key with
  | some old => old.picks
  | none => []

/-- The lineup document produced by an accepted save: the code's
`lineupData` written with `set(..., merge of true)`, so the picks map is
deep-merged with any previously stored picks while every scalar field is
replaced (`isComplete` counts only the submitted picks, `totalPoints` is
reset to null). -/
def savedLineupDoc (userId : String) (payload : SaveLineupPayload) (now : Int)
    (st : FStore) : FirestoreWeeklyLineup :=
  let stamped := stampPicks payload.picks now
  { userId := userId
    leagueId := payload.leagueId
    season := currentSeason
    week := payload.week
    picks := mergePicks
      (oldLineupPicks st (userId, payload.leagueId, currentSeason, payload.week))
      stamped
    isComplete := (stamped.map Prod.fst).dedup.length = 8
    lastUpdated := now
    totalPoints := none }

/-- The payload validation of lineupProcessing.ts lines 46 to 61, as the
conjunction of the four checks that each throw invalid-argument. -/
def payloadOk (payload : SaveLineupPayload) : Prop :=
  ¬ payload.leagueId = ""
    ∧ ¬ (payload.week < 1 ∨ maxNflWeeks < payload.week)
    ∧ ¬ payload.picks = []
    ∧ ∀ q ∈ payload.picks,
        q.1 ∈ validPositions ∧ (q.2.type = "player" ∨ q.2.type = "team")

instance (payload : SaveLineupPayload) : Decidable (payloadOk payload) := by
  unfold payloadOk; infer_instance

/-- lineupProcessing.ts `saveWeeklyLineup` for an authenticated user: input
validation, deadline check against the stored schedule, then one transaction
that reads the usage counts of the picked entities, rejects if any is already
at the cap, and otherwise commits the merged lineup write plus one increment
per filled slot.  Returns the state after the call together with the
rejection reason, if any; a rejected call commits nothing. -/
def saveWeeklyLineup (userId : String) (payload : SaveLineupPayload)
    (now : Int) (st : FStore) : FStore × Option SaveError :=
  if payload.leagueId = "" then (st, some .invalidArgument)
  else if payload.week < 1 ∨ maxNflWeeks < payload.week then
    (st, some .invalidArgument)
  else if payload.picks = [] then (st, some .invalidArgument)
  else if ¬ (∀ q ∈ payload.picks,
      q.1 ∈ validPositions ∧ (q.2.type = "player" ∨ q.2.type = "team")) then
    (st, some .invalidArgument)
  else
    match lookupA st.schedules (currentSeason, payload.week) with
    | none => (st, some .scheduleUnavailable)
    | some scheduleData =>
        if scheduleData.games = [] then (st, some .cannotDetermineDeadline)
        else if 0 < earliestGameEpoch scheduleData.games
            ∧ earliestGameEpoch scheduleData.games ≤ now then
          (st, some .deadlinePassed)
        else if ∃ eid ∈ entityIdsOf payload.picks,
            maxUsageCount ≤ usageCount st.usage
              (usageKeyOf userId payload.leagueId eid) then
          (st, some .usageLimitReached)
        else
          ({ st with
              lineups := setA st.lineups
                (userId, payload.leagueId, currentSeason, payload.week)
                (savedLineupDoc userId payload now st)
              usage := (entityIdsOf payload.picks).foldl
                (fun us eid => bumpUsage us (usageKeyOf userId payload.leagueId eid))
                st.usage },
           none)

/-! ### lineupProcessing.ts calculateWeeklyScores -/

/-- The per-slot point lookup of `calculateWeeklyScores`: a player pick reads
the player's stored `fantasyPoints` for the queried week and season, a team
pick reads the unit field matching the slot name; a missing game-stat row, a
missing field or an unknown team slot contributes 0. -/
def pickPoints (st : FStore) (week season : Int) (position : String)
    (pick : LineupPick) : Rat :=
  if pick.type = "player" then
    match st.playerGameStats.find?
        (fun q => q.1 = pick.id ∧ q.2.week = week ∧ q.2.season = season) with
    | some (_, d) => d.fantasyPoints.getD 0
    | none => 0
  else
    match st.teamGameStats.find?
        (fun q => q.1 = pick.id ∧ q.2.week = week ∧ q.2.season = season) with
    | some (_, d) =>
        if position = "PassingOffense" then d.fantasyPointsPassing.getD 0
        else if position = "RushingOffense" then d.fantasyPointsRushing.getD 0
        else if position = "Defense" then d.fantasyPointsDefense.getD 0
        else if position = "SpecialTeams" then d.fantasyPointsSpecialTeams.getD 0
        else 0
    | none => 0

/-- Scoring one lineup: a lineup with no picks is skipped, otherwise the slot
contributions are summed, rounded to 2 decimals and written back as
`totalPoints` with a fresh `lastUpdated`. -/
def scoreLineup (st : FStore) (week season now : Int)
    (lineup : FirestoreWeeklyLineup) : FirestoreWeeklyLineup :=
  if lineup.picks = [] then lineup
  else
    let total := round2 (lineup.picks.foldl
      (fun s q => s + pickPoints st week season q.1 q.2) 0)
    { lineup with totalPoints := some total, lastUpdated := now }

/-- Whether a lineup document matches the `calculateWeeklyScores` query
(season and week field equality, plus the optional league filter). -/
def lineupMatches (week season : Int) (leagueFilter : Option String)
    (lineup : FirestoreWeeklyLineup) : Prop :=
  lineup.season = season ∧ lineup.week = week
    ∧ ∀ l ∈ leagueFilter, lineup.leagueId = l

instance (week season : Int) (leagueFilter : Option String)
    (lineup : FirestoreWeeklyLineup) :
    Decidable (lineupMatches week season leagueFilter lineup) := by
  unfold lineupMatches; infer_instance

/-- lineupProcessing.ts `calculateWeeklyScores`: validate the week, then
score every stored lineup matching the query against the stored game stats.
Game-stat documents are never written by this job. -/
def calculateWeeklyScores (week season : Int) (leagueFilter : Option String)
    (now : Int) (st : FStore) : FStore :=
  if week < 1 ∨ maxNflWeeks < week then st
  else
    { st with
        lineups := st.lineups.map (fun q =>
          if lineupMatches week season leagueFilter q.2 then
            (q.1, scoreLineup st week season now q.2)
          else q) }

/-! ### Concrete inputs used by witnesses and counterexamples -/

/-- A week-1 schedule whose only game kicks off at epoch 100. -/
def scheduleAt100 : FirestoreWeeklySchedule :=
  { games := [{ gameTimeEpoch := some "100" }] }

/-- A store holding only the week-1 schedule with kickoff 100. -/
def stBase : FStore :=
  { lineups := [], usage := [],
    schedules := [((currentSeason, 1), scheduleAt100)],
    playerGameStats := [], teamGameStats := [] }

/-- A store whose week-1 schedule has one game with an unparseable kickoff. -/
def stTbd : FStore :=
  { lineups := [], usage := [],
    schedules := [((currentSeason, 1), { games := [{ gameTimeEpoch := some "TBD" }] })],
    playerGameStats := [], teamGameStats := [] }

/-- A store with no documents at all. -/
def emptyStore : FStore :=
  { lineups := [], usage := [], schedules := [],
    playerGameStats := [], teamGameStats := [] }

/-- A week-1 submission picking player p1 at QB. -/
def payQB : SaveLineupPayload :=
  { leagueId := "L", week := 1, picks := [("QB", { id := "p1", type := "player" })] }

/-- A week-1 submission picking player p2 at RB (and nothing at QB). -/
def payRB : SaveLineupPayload :=
  { leagueId := "L", week := 1, picks := [("RB", { id := "p2", type := "player" })] }

/-- A week-1 submission picking the same team 11 for both the Defense and the
SpecialTeams slots. -/
def payDup : SaveLineupPayload :=
  { leagueId := "L", week := 1,
    picks := [("Defense", { id := "11", type := "team" }),
              ("SpecialTeams", { id := "11", type := "team" })] }

/-- A one-player box score: a player of team A whose only stat is one fumble
return touchdown. -/
def fumbleOnlyMap : PlayerStatsMap :=
  [("p1", some { teamID := some "A",
                 Defense := some { fumRetTD := some "1" } })]

/-- First save of the duplicate-slot submission, before kickoff, from the
empty store. -/
def dupSave1 : FStore × Option SaveError := saveWeeklyLineup "u1" payDup 10 stBase

/-- Second save of the duplicate-slot submission on the resulting store. -/
def dupSave2 : FStore × Option SaveError := saveWeeklyLineup "u1" payDup 11 dupSave1.1

/-- Third save of the duplicate-slot submission on the resulting store. -/
def dupSave3 : FStore × Option SaveError := saveWeeklyLineup "u1" payDup 12 dupSave2.1

/-- A first save filling only the QB slot. -/
def qbSave : FStore × Option SaveError := saveWeeklyLineup "u1" payQB 10 stBase

/-- A second save for the same user, league and week filling only the RB
slot (QB absent from this submission). -/
def rbResave : FStore × Option SaveError := saveWeeklyLineup "u1" payRB 20 qbSave.1

/-! ### Helper lemmas about the association-list store -/

theorem lookupA_setA_self {κ α : Type} [DecidableEq κ] (l : List (κ × α))
    (k : κ) (v : α) : lookupA (setA l k v) k = some v := by
  induction l with
  | nil => simp [setA, lookupA]
  | cons h t ih =>
      unfold setA
      by_cases hk : k = h.1
      · simp [hk, lookupA]
      · simp [hk, lookupA, ih]

theorem lookupA_setA_ne {κ α : Type} [DecidableEq κ] (l : List (κ × α))
    {k k' : κ} (v : α) (hne : k' ≠ k) :
    lookupA (setA l k v) k' = lookupA l k' := by
  induction l with
  | nil => simp [setA, lookupA, hne]
  | cons h t ih =>
      unfold setA
      by_cases hk : k = h.1
      · subst hk; simp [lookupA, hne]
      · simp only [if_neg hk]
        unfold lookupA
        by_cases hk' : k' = h.1
        · simp [hk']
        · simp [hk', ih]

theorem usageCount_bump (us : List (UsageKey × Int)) (k k' : UsageKey) :
    usageCount (bumpUsage us k) k' =
      if k' = k then usageCount us k + 1 else usageCount us k' := by
  unfold bumpUsage usageCount
  by_cases h : k' = k
  · subst h; rw [lookupA_setA_self]; simp
  · rw [lookupA_setA_ne us _ h, if_neg h]

theorem usageCount_foldl_bump (ks : List UsageKey)
    (us : List (UsageKey × Int)) (k : UsageKey) :
    usageCount (ks.foldl bumpUsage us) k = usageCount us k + ks.count k := by
  induction ks generalizing us with
  | nil => simp
  | cons a t ih =>
      rw [List.foldl_cons, ih, usageCount_bump, List.count_cons]
      by_cases h : k = a
      · subst h; simp; omega
      · simp [h]
        exact fun hh => h hh.symm

theorem lookupA_append {κ α : Type} [DecidableEq κ] (l1 l2 : List (κ × α))
    (k : κ) :
    lookupA (l1 ++ l2) k =
      match lookupA l1 k with
      | some v => some v
      | none => lookupA l2 k := by
  induction l1 with
  | nil => simp [lookupA]
  | cons h t ih =>
      obtain ⟨k1, v1⟩ := h
      by_cases hk : k = k1
      · simp [lookupA, hk]
      · simp [lookupA, hk, ih]

theorem lookupA_eq_none_iff_not_contains {α : Type}
    (l : List (String × α)) (k : String) :
    lookupA l k = none ↔ (l.map Prod.fst).contains k = false := by
  induction l with
  | nil => simp [lookupA]
  | cons h t ih =>
      unfold lookupA
      by_cases hk : k = h.1 <;> simp [hk, ih]

theorem lookupA_filter_keys {α : Type} (l : List (String × α))
    (p : String → Bool) (k : String) (hk : p k = true) :
    lookupA (l.filter (fun q => p q.1)) k = lookupA l k := by
  induction l with
  | nil => rfl
  | cons h t ih =>
      obtain ⟨k1, v1⟩ := h
      by_cases hk1 : k = k1
      · subst hk1; simp [List.filter_cons, hk, lookupA]
      · cases hp : p k1 <;> simp [List.filter_cons, hp, lookupA, hk1, ih]

theorem lookupA_mergePicks (old new : List (String × LineupPick))
    (k : String) :
    lookupA (mergePicks old new) k =
      match lookupA new k with
      | some v => some v
      | none => lookupA old k := by
  unfold mergePicks
  rw [lookupA_append]
  cases hn : lookupA new k with
  | some v => rfl
  | none =>
      have hc : (new.map Prod.fst).contains k = false :=
        (lookupA_eq_none_iff_not_contains new k).mp hn
      simp only []
      exact lookupA_filter_keys old
        (fun x => !((new.map Prod.fst).contains x)) k
        (by simp only [hc, Bool.not_false])

theorem lookupA_map_value {κ α β : Type} [DecidableEq κ] (f : α → β)
    (l : List (κ × α)) (k : κ) :
    lookupA (l.map (fun q => (q.1, f q.2))) k = (lookupA l k).map f := by
  induction l with
  | nil => simp [lookupA]
  | cons h t ih =>
      unfold lookupA
      by_cases hk : k = h.1 <;> simp [hk, ih]

theorem lookupA_stampPicks (picks : List (String × RawPick)) (now : Int)
    (k : String) :
    lookupA (stampPicks picks now) k =
      (lookupA picks k).map
        (fun rp => { id := rp.id, type := rp.type, selectedAt := now }) := by
  unfold stampPicks
  exact lookupA_map_value
    (fun rp : RawPick =>
      ({ id := rp.id, type := rp.type, selectedAt := now } : LineupPick)) picks k

/-! ### Helper lemmas about the deadline fold -/

theorem earliestGameEpoch_pos (games : List GameInfoForWeek) :
    0 < earliestGameEpoch games := by
  unfold earliestGameEpoch
  have h : ∀ acc : Int, 0 < acc →
      0 < games.foldl
        (fun acc g =>
          let gameEpoch := safeParseIntOpt g.gameTimeEpoch
          if 0 < gameEpoch ∧ gameEpoch < acc then gameEpoch else acc) acc := by
    induction games with
    | nil => intro acc hacc; simpa using hacc
    | cons g t ih =>
        intro acc hacc
        rw [List.foldl_cons]
        by_cases hc : 0 < safeParseIntOpt g.gameTimeEpoch
          ∧ safeParseIntOpt g.gameTimeEpoch < acc
        · simp only [if_pos hc]; exact ih _ hc.1
        · simp only [if_neg hc]; exact ih _ hacc
  exact h _ (by norm_num [maxSafeInteger])

theorem earliestGameEpoch_of_no_positive (games : List GameInfoForWeek)
    (h : ∀ g ∈ games, safeParseIntOpt g.gameTimeEpoch ≤ 0) :
    earliestGameEpoch games = maxSafeInteger := by
  unfold earliestGameEpoch
  have key : ∀ acc : Int, games.foldl
      (fun acc g =>
        let gameEpoch := safeParseIntOpt g.gameTimeEpoch
        if 0 < gameEpoch ∧ gameEpoch < acc then gameEpoch else acc) acc = acc := by
    induction games with
    | nil => intro acc; rfl
    | cons g t ih =>
        intro acc
        rw [List.foldl_cons]
        have hg := h g (List.mem_cons_self g t)
        have hcond : ¬ (0 < safeParseIntOpt g.gameTimeEpoch
            ∧ safeParseIntOpt g.gameTimeEpoch < acc) := by
          rintro ⟨h1, -⟩; omega
        rw [if_neg hcond]
        exact ih (fun g hg => h g (List.mem_cons_of_mem _ hg)) acc
  exact key _

/-! ### Helper lemmas about scoring -/

theorem scoreLineup_update_lineups (st : FStore)
    (l : List (LineupKey × FirestoreWeeklyLineup)) (week season now : Int)
    (lineup : FirestoreWeeklyLineup) :
    scoreLineup { st with lineups := l } week season now lineup
      = scoreLineup st week season now lineup := rfl

theorem scoreLineup_picks (st : FStore) (week season now : Int)
    (lineup : FirestoreWeeklyLineup) :
    (scoreLineup st week season now lineup).picks = lineup.picks := by
  unfold scoreLineup; split <;> rfl

theorem scoreLineup_season (st : FStore) (week season now : Int)
    (lineup : FirestoreWeeklyLineup) :
    (scoreLineup st week season now lineup).season = lineup.season := by
  unfold scoreLineup; split <;> rfl

theorem scoreLineup_week (st : FStore) (week season now : Int)
    (lineup : FirestoreWeeklyLineup) :
    (scoreLineup st week season now lineup).week = lineup.week := by
  unfold scoreLineup; split <;> rfl

theorem scoreLineup_leagueId (st : FStore) (week season now : Int)
    (lineup : FirestoreWeeklyLineup) :
    (scoreLineup st week season now lineup).leagueId = lineup.leagueId := by
  unfold scoreLineup; split <;> rfl

theorem lineupMatches_scoreLineup (week season : Int)
    (leagueFilter : Option String) (st : FStore) (w s n : Int)
    (lineup : FirestoreWeeklyLineup) :
    lineupMatches week season leagueFilter (scoreLineup st w s n lineup)
      ↔ lineupMatches week season leagueFilter lineup := by
  unfold lineupMatches
  rw [scoreLineup_season, scoreLineup_week, scoreLineup_leagueId]

theorem scoreLineup_totalPoints_stable (st : FStore) (week season n1 n2 : Int)
    (lineup : FirestoreWeeklyLineup) :
    (scoreLineup st week season n2 (scoreLineup st week season n1 lineup)).totalPoints
      = (scoreLineup st week season n1 lineup).totalPoints := by
  unfold scoreLineup
  by_cases h : lineup.picks = [] <;> simp [h]

theorem usageKeyOf_injective (u l : String) :
    Function.Injective (usageKeyOf u l) := by
  intro a b h
  simpa [usageKeyOf] using h

theorem usageCount_saveFold (u l : String) (ids : List String)
    (us : List (UsageKey × Int)) (k : UsageKey) :
    usageCount (ids.foldl (fun acc eid => bumpUsage acc (usageKeyOf u l eid)) us) k
      = usageCount us k + (ids.map (usageKeyOf u l)).count k := by
  rw [← List.foldl_map (usageKeyOf u l) bumpUsage ids us]
  exact usageCount_foldl_bump _ us k

theorem count_map_usageKeyOf (u l : String) (ids : List String) (eid : String) :
    (ids.map (usageKeyOf u l)).count (usageKeyOf u l eid) = ids.count eid := by
  induction ids with
  | nil => rfl
  | cons a t ih =>
      simp only [List.map_cons, List.count_cons, ih]
      by_cases h : a = eid
      · simp [h]
      · have h2 : ¬ usageKeyOf u l a = usageKeyOf u l eid :=
          fun hh => h (usageKeyOf_injective u l hh)
        simp [h, h2]

theorem stampPicks_keys (picks : List (String × RawPick)) (now : Int) :
    (stampPicks picks now).map Prod.fst = picks.map Prod.fst := by
  simp [stampPicks, List.map_map, Function.comp_def]

/-- Evaluation rule for `round2` when the scaled value is a whole number. -/
theorem round2_eval (x : Rat) (n : Int) (h : x * 100 = (n : Rat)) :
    round2 x = (n : Rat) / 100 := by
  unfold round2 jsRound
  rw [h]
  have hhalf : ⌊(1 : Rat) / 2⌋ = 0 := by
    rw [Int.floor_eq_zero_iff]
    constructor <;> norm_num
  rw [add_comm, Int.floor_add_int, hhalf, zero_add]

/-! ### Claim theorems -/

/-- Claim C7: for every team defense game stat, `calculateDefensePoints`
returns the points-allowed tier bonus (10 for 0 allowed, 6 for 2 to 9, 3 for
10 to 20, 0 otherwise) plus 2 per interception and fumble recovered, 1 per
sack, 2 per safety and 6 per defensive touchdown (the `defTD` input being the
defensive-touchdown count with return touchdowns already credited to special
teams), rounded to 2 decimals; in particular ptsAllowed 0, sacks 3,
interceptions 1, fumbles recovered 0, safeties 0, defTD 0 yields exactly
15.00. -/
theorem defense_points_formula :
    (∀ (v i f sa t : Int) (s : Rat) (ps : Option PassingStatsAgg)
       (rs : Option RushingStatsAgg) (sts : Option SpecialTeamsStatsCalc),
      calculateDefensePoints
        { passingStats := ps, rushingStats := rs,
          teamDefData := some
            { ptsAllowed := some v, defensiveInterceptions := some i,
              fumblesRecovered := some f, sacks := some s,
              safeties := some sa, defTD := some t },
          specialTeamsStats := sts }
        = round2 (specDefenseTier v + 2 * ((i : Rat) + (f : Rat)) + 1 * s
            + 2 * (sa : Rat) + 6 * (t : Rat)))
    ∧ calculateDefensePoints
        { teamDefData := some
            { ptsAllowed := some 0, defensiveInterceptions := some 1,
              fumblesRecovered := some 0, sacks := some 3,
              safeties := some 0, defTD := some 0 } } = 15 := by
  constructor
  · intro v i f sa t s ps rs sts
    simp only [calculateDefensePoints, specDefenseTier, safeParseIntNum,
      safeParseFloatNum, Option.getD_some]
    congr 1
    push_cast
    ring
  · simp only [calculateDefensePoints, safeParseIntNum, safeParseFloatNum,
      Option.getD_some]
    norm_num
    rw [round2_eval 15 1500 (by norm_num)]
    norm_num

/-- Claim C10: when the points-allowed field is absent,
`calculateDefensePoints` treats points allowed as 99: the result is the same
as with 99 points allowed, so no tier bonus is granted (a missing value is
never scored as a shutout), while the interception, fumble-recovery, sack,
safety and defensive-touchdown terms are still awarded. -/
theorem defense_points_missing_pts_allowed :
    ∀ (i f sa t : Option Int) (s : Option Rat) (ps : Option PassingStatsAgg)
      (rs : Option RushingStatsAgg) (sts : Option SpecialTeamsStatsCalc),
      calculateDefensePoints
        { passingStats := ps, rushingStats := rs,
          teamDefData := some
            { ptsAllowed := none, defensiveInterceptions := i,
              fumblesRecovered := f, sacks := s, safeties := sa, defTD := t },
          specialTeamsStats := sts }
        = calculateDefensePoints
            { teamDefData := some
                { ptsAllowed := some 99, defensiveInterceptions := i,
                  fumblesRecovered := f, sacks := s, safeties := sa, defTD := t } }
      ∧ calculateDefensePoints
          { passingStats := ps, rushingStats := rs,
            teamDefData := some
              { ptsAllowed := none, defensiveInterceptions := i,
                fumblesRecovered := f, sacks := s, safeties := sa, defTD := t },
            specialTeamsStats := sts }
        = round2 (2 * (((i.getD 0 : Int) : Rat) + ((f.getD 0 : Int) : Rat))
            + 1 * s.getD 0 + 2 * ((sa.getD 0 : Int) : Rat)
            + 6 * ((t.getD 0 : Int) : Rat)) := by
  intro i f sa t s ps rs sts
  constructor
  · rfl
  · simp only [calculateDefensePoints, safeParseIntNum, safeParseFloatNum,
      Option.getD_none, Option.getD_some]
    norm_num
    congr 1
    ring

/-- Claim C8 (counterexample): a game whose only special-teams-relevant stat
for team A is one fumble return touchdown is scored 0 special-teams points by
the ingestion pipeline, while the claimed formula (which counts fumble return
touchdowns at 6) gives 6 — the pipeline aggregates fumble return TDs but
`calculateSpecialTeamsPoints` never reads them. -/
theorem special_teams_fumble_counterexample :
    pipelineSpecialTeamsPoints fumbleOnlyMap "A" = 0
    ∧ specSpecialTeamsPoints fumbleOnlyMap "A" = 6
    ∧ ¬ pipelineSpecialTeamsPoints fumbleOnlyMap "A"
        = specSpecialTeamsPoints fumbleOnlyMap "A" := by
  have hk : aggregateKickingStats fumbleOnlyMap "A"
      = { totalExtraPointsMade := 0, totalFieldGoalsMade := 0 } := by decide
  have hr : aggregateSpecialTeamsReturnStats fumbleOnlyMap "A"
      = { totalKickReturnTDs := 0, totalPuntReturnTDs := 0,
          totalFumbleReturnTDs := 1 } := by decide
  have e0 : pipelineSpecialTeamsPoints fumbleOnlyMap "A" = 0 := by
    simp only [pipelineSpecialTeamsPoints, buildSpecialTeamsStats, hk, hr,
      calculateSpecialTeamsPoints, safeParseIntNum, Option.getD_some]
    norm_num
    rw [round2_eval 0 0 (by norm_num)]
    norm_num
  have e6 : specSpecialTeamsPoints fumbleOnlyMap "A" = 6 := by
    simp only [specSpecialTeamsPoints, hk, hr]
    norm_num
    rw [round2_eval 6 600 (by norm_num)]
    norm_num
  exact ⟨e0, e6, by rw [e0, e6]; norm_num⟩

/-- Claim C8 (amended): the special-teams fantasy points produced by the
ingestion pipeline equal 1 times extra points made plus 3 times field goals
made plus 6 times kick and punt return touchdowns plus 2 times returned
extra points, where the pipeline supplies 0 returned extra points; fumble
return touchdowns are aggregated and stored but not included in the
points. -/
theorem pipeline_special_teams_formula :
    ∀ (playerStatsMap : PlayerStatsMap) (teamId : String),
      pipelineSpecialTeamsPoints playerStatsMap teamId
        = round2
            ((1 : Rat) * ((aggregateKickingStats playerStatsMap teamId).totalExtraPointsMade : Int)
              + 3 * ((aggregateKickingStats playerStatsMap teamId).totalFieldGoalsMade : Int)
              + 6 * (((aggregateSpecialTeamsReturnStats playerStatsMap teamId).totalKickReturnTDs
                  + (aggregateSpecialTeamsReturnStats playerStatsMap teamId).totalPuntReturnTDs : Int))
              + 2 * (0 : Rat)) := by
  intro m tid
  simp only [pipelineSpecialTeamsPoints, buildSpecialTeamsStats,
    calculateSpecialTeamsPoints, safeParseIntNum, Option.getD_some]
  congr 1
  push_cast
  ring

/-- Claim C1: a rejected `saveWeeklyLineup` call (invalid input, missing or
empty schedule, deadline passed, or usage cap reached) leaves the whole store
unchanged — neither the lineup document nor any usage count moves; an
accepted call commits, in the same transaction, the new lineup document and
one increment per slot of every entity implied by the picks. -/
theorem save_atomicity (u : String) (p : SaveLineupPayload) (now : Int)
    (st : FStore) :
    ((saveWeeklyLineup u p now st).2.isSome → (saveWeeklyLineup u p now st).1 = st)
    ∧ ((saveWeeklyLineup u p now st).2 = none →
        lookupA (saveWeeklyLineup u p now st).1.lineups
            (u, p.leagueId, currentSeason, p.week)
          = some (savedLineupDoc u p now st)
        ∧ ∀ eid ∈ entityIdsOf p.picks,
            usageCount (saveWeeklyLineup u p now st).1.usage
                (usageKeyOf u p.leagueId eid)
              = usageCount st.usage (usageKeyOf u p.leagueId eid)
                + (entityIdsOf p.picks).count eid) := by
  unfold saveWeeklyLineup
  repeat' first
  | exact ⟨fun _ => rfl, by simp⟩
  | split
  refine ⟨by simp, fun _ => ⟨lookupA_setA_self _ _ _, fun eid hmem => ?_⟩⟩
  show usageCount ((entityIdsOf p.picks).foldl
      (fun acc eid => bumpUsage acc (usageKeyOf u p.leagueId eid)) st.usage) _ = _
  rw [usageCount_saveFold, count_map_usageKeyOf]

/-- Witness for C1 at concrete inputs: a save submitted exactly at kickoff is
rejected and leaves the store untouched; the same save 50 seconds earlier is
accepted and commits the lineup document together with the usage
increment. -/
theorem save_atomicity_witness :
    ((saveWeeklyLineup "u1" payQB 100 stBase).1 = stBase)
    ∧ (lookupA (saveWeeklyLineup "u1" payQB 50 stBase).1.lineups
          ("u1", payQB.leagueId, currentSeason, payQB.week)
        = some (savedLineupDoc "u1" payQB 50 stBase)
      ∧ ∀ eid ∈ entityIdsOf payQB.picks,
          usageCount (saveWeeklyLineup "u1" payQB 50 stBase).1.usage
              (usageKeyOf "u1" payQB.leagueId eid)
            = usageCount stBase.usage (usageKeyOf "u1" payQB.leagueId eid)
              + (entityIdsOf payQB.picks).count eid) :=
  ⟨(save_atomicity "u1" payQB 100 stBase).1 (by decide),
   (save_atomicity "u1" payQB 50 stBase).2 (by decide)⟩

/-- Claim C2 evaluated at the failing input: the duplicate-slot submission
(team 11 at both Defense and SpecialTeams) is accepted three times in a row
from the empty store — the pre-increment check only sees counts 0, 2 and 4 —
and leaves team 11's usage count at 6, above the cap of 5. -/
theorem usage_cap_violation :
    dupSave1.2 = none ∧ dupSave2.2 = none ∧ dupSave3.2 = none
    ∧ usageCount dupSave3.1.usage ("u1", "L", currentSeason, "team_11") = 6
    ∧ maxUsageCount
        < usageCount dupSave3.1.usage ("u1", "L", currentSeason, "team_11") := by
  decide

/-- Claim C3 (counterexample): an accepted save whose picks reference team 11
in two slots increments team 11's usage count by 2, not by exactly 1. -/
theorem per_slot_increment_counterexample :
    dupSave1.2 = none
    ∧ usageCount dupSave1.1.usage ("u1", "L", currentSeason, "team_11") = 2
    ∧ ¬ usageCount dupSave1.1.usage ("u1", "L", currentSeason, "team_11")
        = usageCount stBase.usage ("u1", "L", currentSeason, "team_11") + 1 := by
  decide

/-- Claim C3 (amended): for every accepted save, every usage count changes by
exactly the number of submitted slots whose pick references it — one per slot
for a singly-picked entity, one per occupied slot for an entity filling
several slots, and zero for every other usage document (other entities,
users, leagues or seasons). -/
theorem save_usage_increment_per_slot (u : String) (p : SaveLineupPayload)
    (now : Int) (st : FStore) :
    (saveWeeklyLineup u p now st).2 = none →
    ∀ k : UsageKey,
      usageCount (saveWeeklyLineup u p now st).1.usage k
        = usageCount st.usage k
          + ((entityIdsOf p.picks).map (usageKeyOf u p.leagueId)).count k := by
  unfold saveWeeklyLineup
  repeat' split
  all_goals
    first
    | (intro _ k
       show usageCount ((entityIdsOf p.picks).foldl
           (fun acc eid => bumpUsage acc (usageKeyOf u p.leagueId eid)) st.usage) k = _
       rw [usageCount_saveFold])
    | (intro h; exact Option.noConfusion h)

/-- Witness for the amended C3: the duplicate-slot save is accepted and the
per-key count equation evaluates at team 11's usage key. -/
theorem save_usage_increment_per_slot_witness :
    usageCount (saveWeeklyLineup "u1" payDup 10 stBase).1.usage
        ("u1", "L", currentSeason, "team_11")
      = usageCount stBase.usage ("u1", "L", currentSeason, "team_11")
        + ((entityIdsOf payDup.picks).map (usageKeyOf "u1" payDup.leagueId)).count
            ("u1", "L", currentSeason, "team_11") :=
  save_usage_increment_per_slot "u1" payDup 10 stBase (by decide)
    ("u1", "L", currentSeason, "team_11")

/-- Claim C4 (counterexample): after an accepted save of picks QB only and a
second accepted save of picks RB only for the same user, league, season and
week, the stored picks still contain the QB pick of the first save (with its
old timestamp) next to the new RB pick — set with merge deep-merges the picks
map, so a slot absent from the new submission is not removed. -/
theorem lineup_replace_counterexample :
    qbSave.2 = none ∧ rbResave.2 = none
    ∧ (lookupA rbResave.1.lineups ("u1", "L", currentSeason, 1)).map
        (fun lu => (lookupA lu.picks "QB", lookupA lu.picks "RB"))
      = some (some { id := "p1", type := "player", selectedAt := 10 },
              some { id := "p2", type := "player", selectedAt := 20 }) := by
  decide

/-- Claim C4 (amended): after an accepted save the stored lineup document for
the key is the deep merge of the submission into the previously stored picks:
every submitted slot holds the submitted pick stamped with the current time,
a slot absent from the submission keeps whatever an earlier save stored
there, the completeness flag is true iff the submission itself fills 8
distinct slots, total-points is reset to null and last-updated is the current
time. -/
theorem save_lineup_merge (u : String) (p : SaveLineupPayload) (now : Int)
    (st : FStore) :
    (saveWeeklyLineup u p now st).2 = none →
    lookupA (saveWeeklyLineup u p now st).1.lineups
        (u, p.leagueId, currentSeason, p.week)
      = some (savedLineupDoc u p now st)
    ∧ (∀ pos : String,
        lookupA (savedLineupDoc u p now st).picks pos
          = match lookupA p.picks pos with
            | some rp => some { id := rp.id, type := rp.type, selectedAt := now }
            | none => lookupA
                (oldLineupPicks st (u, p.leagueId, currentSeason, p.week)) pos)
    ∧ ((savedLineupDoc u p now st).isComplete = true
        ↔ (p.picks.map Prod.fst).dedup.length = 8)
    ∧ (savedLineupDoc u p now st).totalPoints = none
    ∧ (savedLineupDoc u p now st).lastUpdated = now := by
  unfold saveWeeklyLineup
  repeat' split
  all_goals
    first
    | (intro _
       refine ⟨lookupA_setA_self _ _ _, fun pos => ?_, ?_, rfl, rfl⟩
       · show lookupA (mergePicks
             (oldLineupPicks st (u, p.leagueId, currentSeason, p.week))
             (stampPicks p.picks now)) pos = _
         rw [lookupA_mergePicks, lookupA_stampPicks]
         cases hp : lookupA p.picks pos <;> simp
       · show (decide ((stampPicks p.picks now |>.map Prod.fst).dedup.length = 8)
             = true)
           ↔ (p.picks.map Prod.fst).dedup.length = 8
         rw [stampPicks_keys]
         exact decide_eq_true_iff)
    | (intro h; exact Option.noConfusion h)

/-- Witness for the amended C4: the RB-only resave over the QB-only save is
accepted; the stored document is the merged one, its QB slot keeps the old
pick, total-points is null. -/
theorem save_lineup_merge_witness :
    lookupA (saveWeeklyLineup "u1" payRB 20 qbSave.1).1.lineups
        ("u1", payRB.leagueId, currentSeason, payRB.week)
      = some (savedLineupDoc "u1" payRB 20 qbSave.1)
    ∧ lookupA (savedLineupDoc "u1" payRB 20 qbSave.1).picks "QB"
        = lookupA (oldLineupPicks qbSave.1
            ("u1", payRB.leagueId, currentSeason, payRB.week)) "QB"
    ∧ (savedLineupDoc "u1" payRB 20 qbSave.1).totalPoints = none := by
  have h := save_lineup_merge "u1" payRB 20 qbSave.1 (by decide)
  refine ⟨h.1, ?_, h.2.2.2.1⟩
  have h2 := h.2.1 "QB"
  rw [show lookupA payRB.picks "QB" = none from by decide] at h2
  exact h2

/-- Claim C5: when the schedule of the week has at least one game with a
positive parseable kickoff epoch, a save whose current instant equals the
earliest kickoff epoch is rejected with the deadline error, and an otherwise
identical save one second earlier is not rejected by the deadline check. -/
theorem deadline_boundary (u : String) (p : SaveLineupPayload) (st : FStore)
    (sched : FirestoreWeeklySchedule) (hok : payloadOk p)
    (hs : lookupA st.schedules (currentSeason, p.week) = some sched)
    (hpos : ∃ g ∈ sched.games, 0 < safeParseIntOpt g.gameTimeEpoch) :
    (saveWeeklyLineup u p (earliestGameEpoch sched.games) st).2
      = some .deadlinePassed
    ∧ ¬ (saveWeeklyLineup u p (earliestGameEpoch sched.games - 1) st).2
        = some .deadlinePassed := by
  obtain ⟨h1, h2, h3, h4⟩ := hok
  have hne : ¬ sched.games = [] := by
    rintro hnil; rw [hnil] at hpos; simp at hpos
  constructor
  · unfold saveWeeklyLineup
    rw [if_neg h1, if_neg h2, if_neg h3, if_neg (not_not_intro h4), hs]
    simp only []
    rw [if_neg hne, if_pos ⟨earliestGameEpoch_pos sched.games, le_refl _⟩]
  · unfold saveWeeklyLineup
    rw [if_neg h1, if_neg h2, if_neg h3, if_neg (not_not_intro h4), hs]
    simp only []
    have hdl : ¬ (0 < earliestGameEpoch sched.games
        ∧ earliestGameEpoch sched.games ≤ earliestGameEpoch sched.games - 1) := by
      rintro ⟨-, hle⟩; omega
    rw [if_neg hne, if_neg hdl]
    split <;> simp

/-- Witness for C5: with the one-game schedule kicking off at epoch 100, the
save at 100 is rejected as past the deadline and the save at 99 is not. -/
theorem deadline_boundary_witness :
    (saveWeeklyLineup "u1" payQB (earliestGameEpoch scheduleAt100.games) stBase).2
      = some .deadlinePassed
    ∧ ¬ (saveWeeklyLineup "u1" payQB
          (earliestGameEpoch scheduleAt100.games - 1) stBase).2
        = some .deadlinePassed :=
  deadline_boundary "u1" payQB stBase scheduleAt100 (by decide) (by decide)
    ⟨{ gameTimeEpoch := some "100" }, by decide⟩

/-- Claim C6 (counterexample): a week whose schedule exists and has one game,
but whose kickoff epoch does not parse to a positive number, is treated as
having no deadline: the submission is accepted, not rejected. -/
theorem deadline_fail_open_counterexample :
    safeParseInt "TBD" = 0
    ∧ (saveWeeklyLineup "u1" payQB 100 stTbd).2 = none := by
  decide

/-- Claim C6 (amended): the deadline check fails closed when the schedule
document is absent or its games list is empty; but when games exist and none
has a positive parseable kickoff epoch the earliest kickoff stays at the
MAX_SAFE_INTEGER sentinel and the save proceeds past every schedule and
deadline check (it can only still fail the usage check). -/
theorem deadline_fail_closed_cases (u : String) (p : SaveLineupPayload)
    (now : Int) (st : FStore) (hok : payloadOk p)
    (hnow : now < maxSafeInteger) :
    (lookupA st.schedules (currentSeason, p.week) = none →
      (saveWeeklyLineup u p now st).2 = some .scheduleUnavailable)
    ∧ (∀ sched : FirestoreWeeklySchedule,
        lookupA st.schedules (currentSeason, p.week) = some sched →
        sched.games = [] →
        (saveWeeklyLineup u p now st).2 = some .cannotDetermineDeadline)
    ∧ (∀ sched : FirestoreWeeklySchedule,
        lookupA st.schedules (currentSeason, p.week) = some sched →
        ¬ sched.games = [] →
        (∀ g ∈ sched.games, safeParseIntOpt g.gameTimeEpoch ≤ 0) →
        ((saveWeeklyLineup u p now st).2 = some .usageLimitReached
          ∨ (saveWeeklyLineup u p now st).2 = none)) := by
  obtain ⟨h1, h2, h3, h4⟩ := hok
  refine ⟨?_, ?_, ?_⟩
  · intro hnone
    unfold saveWeeklyLineup
    rw [if_neg h1, if_neg h2, if_neg h3, if_neg (not_not_intro h4), hnone]
  · intro sched hs hnil
    unfold saveWeeklyLineup
    rw [if_neg h1, if_neg h2, if_neg h3, if_neg (not_not_intro h4), hs]
    simp only []
    rw [if_pos hnil]
  · intro sched hs hne hnp
    have hE : earliestGameEpoch sched.games = maxSafeInteger :=
      earliestGameEpoch_of_no_positive sched.games hnp
    have hdl : ¬ (0 < earliestGameEpoch sched.games
        ∧ earliestGameEpoch sched.games ≤ now) := by
      rintro ⟨-, hle⟩
      rw [hE] at hle
      exact absurd hnow (not_lt.mpr hle)
    unfold saveWeeklyLineup
    rw [if_neg h1, if_neg h2, if_neg h3, if_neg (not_not_intro h4), hs]
    simp only []
    rw [if_neg hne, if_neg hdl]
    split <;> simp

/-- Witness for the amended C6: in the empty store the schedule is absent and
the save is rejected as schedule-unavailable, and with the unparseable-epoch
schedule the save goes through to acceptance. -/
theorem deadline_fail_closed_cases_witness :
    (saveWeeklyLineup "u1" payQB 100 emptyStore).2 = some .scheduleUnavailable
    ∧ ((saveWeeklyLineup "u1" payQB 100 stTbd).2 = some .usageLimitReached
        ∨ (saveWeeklyLineup "u1" payQB 100 stTbd).2 = none) :=
  ⟨(deadline_fail_closed_cases "u1" payQB 100 emptyStore (by decide)
      (by decide)).1 (by decide),
   (deadline_fail_closed_cases "u1" payQB 100 stTbd (by decide)
      (by decide)).2.2 { games := [{ gameTimeEpoch := some "TBD" }] }
      (by decide) (by decide) (by decide)⟩

/-- Claim C9: with the stored game stats fixed, running
`calculateWeeklyScores` twice in a row for the same week, season and league
filter writes the same total-points value to every lineup both times. -/
theorem calculateWeeklyScores_idempotent (week season : Int)
    (leagueFilter : Option String) (n1 n2 : Int) (st : FStore) :
    (calculateWeeklyScores week season leagueFilter n2
        (calculateWeeklyScores week season leagueFilter n1 st)).lineups.map
        (fun q => (q.1, q.2.totalPoints))
      = (calculateWeeklyScores week season leagueFilter n1 st).lineups.map
          (fun q => (q.1, q.2.totalPoints)) := by
  unfold calculateWeeklyScores
  split
  · rfl
  · simp only [scoreLineup_update_lineups, List.map_map]
    apply List.map_congr_left
    intro q _
    simp only [Function.comp]
    by_cases hm : lineupMatches week season leagueFilter q.2
    · simp only [if_pos hm]
      have hm2 : lineupMatches week season leagueFilter
          (scoreLineup st week season n1 q.2) :=
        (lineupMatches_scoreLineup week season leagueFilter st week season n1
          q.2).mpr hm
      simp only [if_pos hm2]
      rw [scoreLineup_totalPoints_stable]
    · simp only [if_neg hm]

end EasyFantasy
